import Mathlib

/-!
Verification development for the fireflies-agent repository.

The development shallowly embeds the three source files
(`src/prompts/preprocessing.py`, `src/prompts/email_draft.py`, `src/app.py`)
into Lean.  Python strings are modelled as Lean `String`; `len`, `strip`,
`lower` and `join` are modelled character-wise on `String.data`.

JSON-derived dictionary fields are modelled by `JField`: a field read from a
raw payload can be absent (`missing`), present with the JSON value `null`
(`null`), or present with a value (`val`).  Python's `dict.get(k)` returns
`None` both for a missing key and for a null value, while `dict.get(k, d)`
returns the default only for a missing key; `jget` and `jgetD` reproduce
exactly that, with Lean `Option.none` standing for the Python value `None`.
A Lean result of `none` for a whole computation stands for an uncaught
Python exception (e.g. `None.strip()` raising `AttributeError`, or
`", ".join` over a list containing `None` raising `TypeError`).

The model covers ASCII text: `Char.toLower` lowers only ASCII letters and
`isPySpace` lists the ASCII whitespace characters stripped by `str.strip()`.
Every claim below concerns ASCII data only.
-/

/-- Whitespace characters removed by Python `str.strip()` (ASCII range). -/
def isPySpace (c : Char) : Bool :=
  c == ' ' || c == '\t' || c == '\n' || c == '\r' || c == '\x0b' || c == '\x0c'

/-- Model of Python `str.strip()` on the character list: drop whitespace from
both ends. -/
def stripChars (l : List Char) : List Char :=
  ((l.dropWhile isPySpace).reverse.dropWhile isPySpace).reverse

/-- Model of Python `text.strip()`. -/
def pyStrip (s : String) : String :=
  String.mk (stripChars s.data)

/-- Model of Python `len(text)`: number of code points. -/
def pyLen (s : String) : Nat :=
  s.data.length

/-- Model of Python `text.lower()` (ASCII letters). -/
def pyLower (s : String) : String :=
  String.mk (s.data.map Char.toLower)

/-- Model of Python `needle in hay` on strings after both sides were lowered:
case-insensitive substring containment, as used by
`tech.lower() in text.lower()` in `extract_entities_from_text`. -/
def pyContains (text : String) (term : String) : Bool :=
  decide (List.IsInfix (pyLower term).data (pyLower text).data)

/-- Model of Python `sep.join(parts)` for a list of strings. -/
def pyJoinStr (sep : String) : List String → String
  | [] => ""
  | [x] => x
  | x :: y :: rest => x ++ sep ++ pyJoinStr sep (y :: rest)

/-- A field of a JSON-derived Python dictionary: absent, null, or a value. -/
inductive JField (α : Type) where
  | missing : JField α
  | null : JField α
  | val : α → JField α
deriving DecidableEq

/-- Model of Python `d.get(k)`: `None` (Lean `none`) for a missing key and
for a null value. -/
def jget {α : Type} : JField α → Option α
  | JField.missing => none
  | JField.null => none
  | JField.val a => some a

/-- Model of Python `d.get(k, default)`: the default applies only to a
missing key; a key present with value null yields `None` (Lean `none`). -/
def jgetD {α : Type} : JField α → α → Option α
  | JField.missing, d => some d
  | JField.null, _ => none
  | JField.val a, _ => some a

/-- Model of Python `x or y` for `x, y : str | None`: `x` unless `x` is
falsy (`None` or the empty string). -/
def pyOrStr (x : Option String) (y : Option String) : Option String :=
  match x with
  | some s => if s == "" then y else some s
  | none => y

/-- Model of Python `x or d` for `x : str | None` and a (truthy) literal
default `d`. -/
def pyOrStrD (x : Option String) (d : String) : String :=
  match x with
  | some s => if s == "" then d else s
  | none => d

/-- Model of Python `x or d` for `x : list | None` (an empty list is falsy). -/
def pyOrListD {α : Type} (x : Option (List α)) (d : List α) : List α :=
  match x with
  | some l => if l.isEmpty then d else l
  | none => d

/-- Model of Python `x or d` for `x : int | None` (zero is falsy). -/
def pyOrNatD (x : Option Nat) (d : Nat) : Nat :=
  match x with
  | some n => if n == 0 then d else n
  | none => d

/-- Sequence a list of optional strings: `none` as soon as any element is
`none`. -/
def optionSequence : List (Option String) → Option (List String)
  | [] => some []
  | none :: _ => none
  | some s :: rest => (optionSequence rest).map (fun l => s :: l)

/-- Model of Python `sep.join(parts)` where each part may be `None`
(`none`): joining a list containing `None` raises `TypeError`, modelled as
`none`. -/
def pyJoin (sep : String) (parts : List (Option String)) : Option String :=
  (optionSequence parts).map (pyJoinStr sep)

/-- Model of Python `str(x)` inside an f-string for `x : str | None`:
`None` renders as the text `"None"`. -/
def pyStr (x : Option String) : String :=
  match x with
  | some s => s
  | none => "None"

/-! ## Data model (§3 of the specification, fields read by the sources) -/

/-- An attendee record as read by the sources (`displayName`, `name`). -/
structure Attendee where
  displayName : JField String
  name : JField String
deriving DecidableEq

/-- A sentence record as read by the sources (`speaker_name`, `text`). -/
structure Sentence where
  speaker_name : JField String
  text : JField String
deriving DecidableEq

/-- The summary sub-object (`overview`, `action_items`, `keywords`). -/
structure Summary where
  overview : JField String
  action_items : JField (List String)
  keywords : JField (List String)
deriving DecidableEq

/-- The raw transcript dictionary, restricted to the fields the sources
read. -/
structure Transcript where
  title : JField String
  dateString : JField String
  duration : JField Nat
  meeting_attendees : JField (List Attendee)
  sentences : JField (List Sentence)
  summary : JField Summary
  transcript_url : JField String
deriving DecidableEq

/-- Result of `extract_entities_from_text`.  The Python sets are returned as
duplicate-free lists; we keep the catalog order (Python set iteration order
is unspecified, membership is the meaningful property). -/
structure Entities where
  people : List String
  companies : List String
  technologies : List String
deriving DecidableEq

/-- Result dictionary of `preprocess_transcript`. -/
structure PreprocessedTranscript where
  title : String
  date_string : String
  attendee_names : String
  overview : String
  keywords : List String
  action_items : List String
  key_discussion : String
  entities : Entities
  full_transcript_text : String
deriving DecidableEq

/-! ## src/prompts/preprocessing.py -/

/-- The words of `FILLER_PATTERNS` (src/prompts/preprocessing.py lines
7-12).  Each pattern is an anchored alternation `^(w1|w2|...)\.?$`, so the
four regexes together match exactly one of these words, optionally followed
by a period.  (`re.match` with patterns anchored by `^...$`; the regex is
only ever applied to stripped text, which cannot end in a newline, so the
end-of-line behaviour of `$` before a final newline cannot arise and `$` is
embedded as end of string.) -/
def FILLER_WORDS : List String :=
  ["okay", "ok", "yeah", "yes", "no", "hi", "hello", "hey", "bye", "cool",
   "sure", "right", "so", "um", "uh", "hmm", "ah", "oh",
   "thank you", "thanks",
   "good", "great", "awesome", "nice", "perfect",
   "i see", "i think", "i mean", "you know"]

/-- Model of `FILLER_REGEX.match(t) is not None` (case-insensitive full
match of one catalog word, optionally followed by a period). -/
def fillerRegexMatches (t : String) : Bool :=
  FILLER_WORDS.any (fun w => pyLower t == w || pyLower t == w ++ ".")

/-- `is_filler_sentence` (src/prompts/preprocessing.py lines 17-22). -/
def is_filler_sentence (text : String) : Bool :=
  let t := pyStrip text
  if pyLen t < 15 then fillerRegexMatches t else false

/-- `is_substantive_sentence` (src/prompts/preprocessing.py lines 25-32). -/
def is_substantive_sentence (text : String) : Bool :=
  let t := pyStrip text
  if pyLen t < 10 then false
  else if is_filler_sentence t then false
  else true

/-- `extract_sentences_text` (src/prompts/preprocessing.py lines 35-46).
A sentence whose `text` field is null makes `sentence.get("text", "")`
return `None`, so `.strip()` raises `AttributeError`; that is modelled by a
`none` result. -/
def extract_sentences_text : List Sentence → Option (List String)
  | [] => some []
  | s :: rest =>
    match jgetD s.text "" with
    | none => none
    | some t0 =>
      let text := pyStrip t0
      match extract_sentences_text rest with
      | none => none
      | some tail =>
        if is_substantive_sentence text then
          match jget s.speaker_name with
          | some speaker =>
            if speaker == "" then some (text :: tail)
            else some ((speaker ++ ": " ++ text) :: tail)
          | none => some (text :: tail)
        else some tail

/-- `extract_key_discussion` (src/prompts/preprocessing.py lines 49-56).
`max_sentences` defaults to 300 in the source; every caller in the
repository passes 300 explicitly. -/
def extract_key_discussion (sentences : List Sentence) (max_sentences : Nat) : Option String :=
  match extract_sentences_text sentences with
  | none => none
  | some substantive =>
    let selected := substantive.take max_sentences
    some (pyJoinStr "\n" (selected.map (fun s => "- " ++ s)))

/-- `common_tech_terms` (src/prompts/preprocessing.py lines 67-71). -/
def common_tech_terms : List String :=
  ["AI", "ChatGPT", "Claude", "Cursor", "Copilot", "GitHub", "Azure", "DevOps",
   "AWS", "GCP", "Jira", "Devin", "Windsurf", "SaaS", "API", "GraphQL",
   "Python", "JavaScript", "TypeScript", "React", "Node", "Docker", "Kubernetes"]

/-- `extract_entities_from_text` (src/prompts/preprocessing.py lines
59-77).  Fields: people, companies, technologies. -/
def extract_entities_from_text (text : String) : Entities :=
  ⟨[], [], common_tech_terms.filter (fun tech => pyContains text tech)⟩

/-- The attendee-name expression
`a.get("displayName") or a.get("name", "Unknown")`
(src/prompts/preprocessing.py line 99): `none` stands for the Python value
`None`, which arises when `displayName` is falsy and `name` is present but
null. -/
def attendeeNameExpr (a : Attendee) : Option String :=
  pyOrStr (jget a.displayName) (jgetD a.name "Unknown")

/-- The attendee_names expression (src/prompts/preprocessing.py lines
97-101): `", ".join(...) if attendees else "Not specified"`.  A `none`
result models the `TypeError` raised by `join` over a list containing
`None`. -/
def computeAttendeeNames (attendees : List Attendee) : Option String :=
  if attendees.isEmpty then some "Not specified"
  else pyJoin ", " (attendees.map attendeeNameExpr)

/-- `preprocess_transcript` (src/prompts/preprocessing.py lines 80-124).
A `none` result models an uncaught Python exception. -/
def preprocess_transcript (transcript_data : Transcript) : Option PreprocessedTranscript :=
  let title := pyOrStrD (jget transcript_data.title) "Meeting"
  let date_string := pyOrStrD (jget transcript_data.dateString) ""
  let attendees := pyOrListD (jget transcript_data.meeting_attendees) []
  match computeAttendeeNames attendees with
  | none => none
  | some attendee_names =>
    let summary_data := (jget transcript_data.summary).getD ⟨JField.missing, JField.missing, JField.missing⟩
    let overview := pyOrStrD (jget summary_data.overview) ""
    let action_items := pyOrListD (jget summary_data.action_items) []
    let keywords := pyOrListD (jget summary_data.keywords) []
    let sentences := pyOrListD (jget transcript_data.sentences) []
    match extract_key_discussion sentences 300 with
    | none => none
    | some key_discussion =>
      match pyJoin " " (sentences.map (fun s => jgetD s.text "")) with
      | none => none
      | some full_text =>
        some ⟨title, date_string, attendee_names, overview, keywords, action_items,
              key_discussion, extract_entities_from_text full_text, full_text⟩

/-! ## src/prompts/email_draft.py -/

/-- `SYSTEM_PROMPT` (src/prompts/email_draft.py lines 15-41), transcribed
verbatim. -/
def SYSTEM_PROMPT : String :=
  "You are an executive assistant helping to draft a professional follow-up email after a business meeting.\n"
  ++ "\n"
  ++ "Your task is to create a substantive, professional follow-up email that:\n"
  ++ "\n"
  ++ "1. PERSONALIZATION:\n"
  ++ "   - Use a personalized greeting with the primary contact\x27s name if identifiable from the transcript\n"
  ++ "   - Reference the specific meeting date/day if mentioned\n"
  ++ "   - Acknowledge the relationship context (e.g., \"Thank you again for your time\")\n"
  ++ "\n"
  ++ "2. SUBSTANTIVE SUMMARY:\n"
  ++ "   - Extract and summarize the KEY BUSINESS POINTS discussed, not generic pleasantries\n"
  ++ "   - Include specific details: numbers, percentages, technologies, company names, constraints\n"
  ++ "   - Organize the summary into clear thematic sections if multiple topics were discussed\n"
  ++ "   - Focus on what was actually discussed, not generic meeting summaries\n"
  ++ "\n"
  ++ "3. ACTION ITEMS AND NEXT STEPS:\n"
  ++ "   - Clearly state any commitments made by either party\n"
  ++ "   - Include specific next steps with clear asks\n"
  ++ "   - If licenses, demos, or follow-up meetings were discussed, mention them explicitly\n"
  ++ "\n"
  ++ "4. TONE AND FORMAT:\n"
  ++ "   - Warm but professional tone\n"
  ++ "   - Do NOT use bold formatting or markdown\n"
  ++ "   - Do NOT use bullet points in the email body - write in flowing paragraphs\n"
  ++ "   - Keep the email focused and substantive (aim for 200-400 words depending on meeting complexity)\n"
  ++ "\n"
  ++ "IMPORTANT: Extract REAL content from the transcript. Do not generate generic placeholder text. If the transcript discusses specific technologies, companies, numbers, or constraints, include those details."

/-- `build_email_prompt` (src/prompts/email_draft.py lines 44-88).  The
module-level `EMAIL_TEMPLATE` is read from `templates/email_template.txt`,
a data file outside the sources; it is therefore passed as the
`email_template` parameter.  `entities` is the optional entities
dictionary (`None` when not supplied); an `Entities` value always has its
three keys, so a supplied dictionary is truthy. -/
def build_email_prompt (email_template : String) (title : String)
    (attendee_names : String) (overview : String) (keywords : List String)
    (action_items : List String) (key_discussion : String)
    (entities : Option Entities) (date_string : String) : String :=
  let entities_section :=
    match entities with
    | none => ""
    | some e =>
      let tech_list := pyOrStrD (some (pyJoinStr ", " e.technologies)) "None identified"
      "\nTechnologies/Tools Mentioned: " ++ tech_list
  SYSTEM_PROMPT
  ++ "\n\nMeeting Details:\n- Title: " ++ title
  ++ "\n- Date: " ++ date_string
  ++ "\n- Attendees: " ++ attendee_names
  ++ "\n- Overview: " ++ (if overview == "" then "Not provided - extract from transcript" else overview)
  ++ "\n- Key Topics: " ++ (if keywords.isEmpty then "Extract from transcript" else pyJoinStr ", " keywords)
  ++ "\n- Action Items: " ++ (if action_items.isEmpty then "Extract from transcript" else pyJoinStr ", " action_items)
  ++ entities_section
  ++ "\n\nTranscript Discussion Points (filtered for substantive content):\n" ++ key_discussion
  ++ "\n\nBased on the above transcript, generate a professional follow-up email. Extract specific details, names, technologies, and commitments from the transcript. Do not use generic placeholder text.\n\nUse the following template structure as a loose guide (adapt based on actual content):\n\n"
  ++ email_template

/-- The prompt that the specification sentence behind claim C9 describes:
identical to `build_email_prompt` except that the technologies line shows
"None identified" exactly when the technologies list is empty (the claim
words), rather than when the comma-joined string is falsy (the code).
This definition follows the claim wording, for comparison with the code. -/
def build_email_prompt_claimed (email_template : String) (title : String)
    (attendee_names : String) (overview : String) (keywords : List String)
    (action_items : List String) (key_discussion : String)
    (entities : Option Entities) (date_string : String) : String :=
  let entities_section :=
    match entities with
    | none => ""
    | some e =>
      let tech_list := if e.technologies.isEmpty then "None identified" else pyJoinStr ", " e.technologies
      "\nTechnologies/Tools Mentioned: " ++ tech_list
  SYSTEM_PROMPT
  ++ "\n\nMeeting Details:\n- Title: " ++ title
  ++ "\n- Date: " ++ date_string
  ++ "\n- Attendees: " ++ attendee_names
  ++ "\n- Overview: " ++ (if overview == "" then "Not provided - extract from transcript" else overview)
  ++ "\n- Key Topics: " ++ (if keywords.isEmpty then "Extract from transcript" else pyJoinStr ", " keywords)
  ++ "\n- Action Items: " ++ (if action_items.isEmpty then "Extract from transcript" else pyJoinStr ", " action_items)
  ++ entities_section
  ++ "\n\nTranscript Discussion Points (filtered for substantive content):\n" ++ key_discussion
  ++ "\n\nBased on the above transcript, generate a professional follow-up email. Extract specific details, names, technologies, and commitments from the transcript. Do not use generic placeholder text.\n\nUse the following template structure as a loose guide (adapt based on actual content):\n\n"
  ++ email_template

/-! ## src/app.py -/

/-- `generate_email_draft` (src/app.py lines 105-138).  The Anthropic call
is an external collaborator: `modelResult` is its outcome, `some text` for
a returned draft and `none` for a raised exception, which the function
catches and replaces with a fixed fallback string.  The first component of
the result is `none` when the function itself raises (`TypeError` from
`", ".join` over a `None` attendee name); the second component records
whether the model call was reached. -/
def generate_email_draft_run (email_template : String) (transcript_data : Transcript)
    (modelResult : Option String) : Option String × Bool :=
  let title := pyOrStrD (jget transcript_data.title) "Meeting"
  let attendees := pyOrListD (jget transcript_data.meeting_attendees) []
  let attendee_names :=
    if attendees.isEmpty then some "Not specified"
    else pyJoin ", " (attendees.map attendeeNameExpr)
  match attendee_names with
  | none => (none, false)
  | some names =>
    let summary_data := (jget transcript_data.summary).getD ⟨JField.missing, JField.missing, JField.missing⟩
    let overview := pyOrStrD (jget summary_data.overview) ""
    let action_items := pyOrListD (jget summary_data.action_items) []
    let keywords := pyOrListD (jget summary_data.keywords) []
    let sentences := pyOrListD (jget transcript_data.sentences) []
    let key_discussion :=
      if sentences.isEmpty then "No transcript available"
      else pyJoinStr "\n" ((sentences.take 20).map (fun s =>
        "- " ++ pyStr (jgetD s.speaker_name "Unknown") ++ ": " ++ pyStr (jgetD s.text "")))
    let _prompt := build_email_prompt email_template title names overview keywords
      action_items key_discussion none ""
    match modelResult with
    | some generated => (some generated, true)
    | none => (some "Error generating email draft. Please try again.", true)

/-- The `duration_mins` computation of `post_to_slack` (src/app.py lines
145 and 148).  Python computes `int(duration / 60)` — true division then
truncation — which coincides with floor division on the non-negative
durations representable exactly as floats; it is embedded as `Nat`
division. -/
def slack_duration_mins (transcript_data : Transcript) : Nat :=
  let duration := pyOrNatD (jget transcript_data.duration) 0
  if duration == 0 then 0 else duration / 60

/-- The Slack message built by `post_to_slack` (src/app.py lines 150-165). -/
def post_to_slack_message (email_draft : String) (transcript_data : Transcript) : String :=
  let title := pyOrStrD (jget transcript_data.title) "Meeting"
  let date_string := pyOrStrD (jget transcript_data.dateString) ""
  let transcript_url := pyOrStrD (jget transcript_data.transcript_url) ""
  let duration_mins := slack_duration_mins transcript_data
  "📧 *Draft Follow-up Email Generated*\n\n*Meeting:* " ++ title
  ++ "\n*Date:* " ++ date_string
  ++ "\n*Duration:* " ++ toString duration_mins ++ " minutes\n"
  ++ (if transcript_url == "" then "" else "*Transcript:* <" ++ transcript_url ++ "|View in Fireflies>")
  ++ "\n\n---\n\n*Email Draft:*\n\n" ++ email_draft
  ++ "\n\n---\n\n_Generated by Fireflies AI Agent. Edit as needed before sending._"

/-- The webhook body fields read by `process_fireflies_webhook`. -/
structure WebhookPayload where
  eventType : JField String
  meetingId : JField String
deriving DecidableEq

/-- Which external collaborators a webhook invocation actually reached:
the Fireflies transcript fetch, the Anthropic model call, and the Slack
post. -/
structure DownstreamCalls where
  fetchedTranscript : Bool
  calledModel : Bool
  postedToChannel : Bool
deriving DecidableEq

/-- No downstream call was made. -/
def noDownstreamCalls : DownstreamCalls := ⟨false, false, false⟩

/-- Python exceptions that can escape the `try` body of
`process_fireflies_webhook`. -/
inductive PyError where
  | jsonDecodeError : PyError
  | httpException : Nat → String → PyError
  | typeError : PyError
deriving DecidableEq

/-- The HTTP outcome of a webhook invocation: a 200 JSON body (ignored or
success) or a raised `HTTPException` with a status code. -/
inductive WebhookResponse where
  | ignoredResp : String → WebhookResponse
  | successResp : Option String → Option String → WebhookResponse
  | raised : Nat → String → WebhookResponse
deriving DecidableEq

/-- The `try` body of `process_fireflies_webhook` (src/app.py lines
179-217).  External collaborators are oracles: `payload` is the parsed
JSON body (`none` = `request.json()` raised `json.JSONDecodeError`),
`fetchResult` the Fireflies fetch outcome (`fetch_fireflies_transcript`
catches its own errors and returns `None` on any failure), `modelResult`
the Anthropic outcome, and `channelId` the resolved Slack channel id
(the cached `TARGET_CHANNEL_ID` or the lookup result).  `post_to_slack`
catches `SlackApiError` internally, so posting always counts as reached
once the channel is known. -/
def webhook_try_body (payload : Option WebhookPayload) (fetchResult : Option Transcript)
    (modelResult : Option String) (email_template : String) (channelId : Option String)
    (targetChannelName : String) : Except PyError WebhookResponse × DownstreamCalls :=
  match payload with
  | none => (Except.error PyError.jsonDecodeError, noDownstreamCalls)
  | some p =>
    let event_type := jget p.eventType
    let meeting_id := jget p.meetingId
    if event_type ≠ some ("Transcription completed") then
      (Except.ok (WebhookResponse.ignoredResp ("Not a transcription completed event")), noDownstreamCalls)
    else if meeting_id = none ∨ meeting_id = some ("") then
      (Except.error (PyError.httpException 400 "Missing meetingId in payload"), noDownstreamCalls)
    else
      match fetchResult with
      | none =>
        (Except.error (PyError.httpException 500 "Failed to fetch transcript from Fireflies"),
         ⟨true, false, false⟩)
      | some transcript_data =>
        match generate_email_draft_run email_template transcript_data modelResult with
        | (none, called) => (Except.error PyError.typeError, ⟨true, called, false⟩)
        | (some email_draft, called) =>
          match channelId with
          | none =>
            (Except.error (PyError.httpException 500
              ("Channel \x27" ++ targetChannelName ++ "\x27 not found")),
             ⟨true, called, false⟩)
          | some cid =>
            let _message := post_to_slack_message email_draft transcript_data
            let _channel := cid
            (Except.ok (WebhookResponse.successResp meeting_id (jget transcript_data.title)),
             ⟨true, called, true⟩)

/-- `process_fireflies_webhook` (src/app.py lines 177-223) with its
`except` clauses.  `json.JSONDecodeError` becomes a 400; every other
exception — including the `HTTPException(400)` raised for a missing
`meetingId`, since `HTTPException` derives from `Exception` — is caught by
the blanket `except Exception` and re-raised as
`HTTPException(500, str(e))`.  Starlette renders `str` of an
`HTTPException` as `"{status_code}: {detail}"`; the `TypeError` message
text is environment detail and is abbreviated here (no theorem depends on
either message). -/
def process_fireflies_webhook (payload : Option WebhookPayload)
    (fetchResult : Option Transcript) (modelResult : Option String)
    (email_template : String) (channelId : Option String)
    (targetChannelName : String) : WebhookResponse × DownstreamCalls :=
  match webhook_try_body payload fetchResult modelResult email_template channelId targetChannelName with
  | (Except.ok r, calls) => (r, calls)
  | (Except.error PyError.jsonDecodeError, calls) =>
    (WebhookResponse.raised 400 "Invalid JSON payload", calls)
  | (Except.error (PyError.httpException c d), calls) =>
    (WebhookResponse.raised 500 (toString c ++ ": " ++ d), calls)
  | (Except.error PyError.typeError, calls) =>
    (WebhookResponse.raised 500 "TypeError", calls)

/-! ## Concrete inputs used by the claim theorems -/

/-- A transcript with every field missing. -/
def emptyTd : Transcript :=
  ⟨JField.missing, JField.missing, JField.missing, JField.missing,
   JField.missing, JField.missing, JField.missing⟩

/-- A transcript whose `summary` field is present but null. -/
def summaryNullTd : Transcript :=
  ⟨JField.missing, JField.missing, JField.missing, JField.missing,
   JField.missing, JField.null, JField.missing⟩

/-- A transcript with one attendee whose `displayName` is absent and whose
`name` is present but null. -/
def attendeeNullNameTd : Transcript :=
  ⟨JField.missing, JField.missing, JField.missing,
   JField.val [⟨JField.missing, JField.null⟩],
   JField.missing, JField.missing, JField.missing⟩

/-- A transcript with one sentence whose `text` is present but null. -/
def sentenceNullTextTd : Transcript :=
  ⟨JField.missing, JField.missing, JField.missing, JField.missing,
   JField.val [⟨JField.missing, JField.null⟩],
   JField.missing, JField.missing⟩

/-- The attendee list of the specification example:
`[{displayName: "Ana"}, {name: "Bo"}, {}]`. -/
def exampleAttendeeTd : Transcript :=
  ⟨JField.missing, JField.missing, JField.missing,
   JField.val [⟨JField.val ("Ana"), JField.missing⟩,
               ⟨JField.missing, JField.val ("Bo")⟩,
               ⟨JField.missing, JField.missing⟩],
   JField.missing, JField.missing, JField.missing⟩

/-- A transcript whose `duration` is 125 seconds. -/
def duration125Td : Transcript :=
  ⟨JField.missing, JField.missing, JField.val 125, JField.missing,
   JField.missing, JField.missing, JField.missing⟩

/-- The attendee-name selection that claim C6 describes: display name when
present, else plain name, else the literal "Unknown".  Stated from the
claim wording, for comparison with `attendeeNameExpr`. -/
def specAttendeeName (a : Attendee) : String :=
  match a.displayName with
  | JField.val d => d
  | _ =>
    match a.name with
    | JField.val n => n
    | _ => "Unknown"

/-- The text of a sentence record whose `text` field is not null: the value
when present, the empty string when the key is missing. -/
def rawText (s : Sentence) : String :=
  (jgetD s.text "").getD ""

/-- The formatted line that `extract_sentences_text` produces for one kept
sentence: the stripped text, prefixed by the speaker name and ": " when a
speaker name is present (Python truthiness: a missing, null or empty
`speaker_name` counts as no speaker). -/
def fmtSentence (s : Sentence) : String :=
  let text := pyStrip (rawText s)
  match jget s.speaker_name with
  | some speaker => if speaker == "" then text else speaker ++ ": " ++ text
  | none => text

/-- A substantive sentence record (39 characters of text, no speaker). -/
def substantiveSent : Sentence :=
  ⟨JField.missing, JField.val ("We agreed to move the deadline to March")⟩

/-- One thousand substantive sentence records. -/
def thousandSentences : List Sentence :=
  List.replicate 1000 substantiveSent

/-! ## Helper lemmas about the Python string model -/

theorem dropWhile_head_not (p : Char → Bool) (l : List Char) (c : Char) (cs : List Char)
    (h : l.dropWhile p = c :: cs) : p c = false := by
  have hh := List.head?_dropWhile_not p l
  rw [h] at hh
  simpa using hh

theorem dropWhile_dropWhile (p : Char → Bool) (l : List Char) :
    (l.dropWhile p).dropWhile p = l.dropWhile p := by
  cases h : l.dropWhile p with
  | nil => simp
  | cons c cs =>
    have hc := dropWhile_head_not p l c cs h
    simp [List.dropWhile_cons, hc]

theorem rstrip_decomp (p : Char → Bool) (u : List Char) :
    u = (u.reverse.dropWhile p).reverse ++ (u.reverse.takeWhile p).reverse := by
  have h := List.takeWhile_append_dropWhile p u.reverse
  have h2 := congrArg List.reverse h
  rw [List.reverse_append, List.reverse_reverse] at h2
  exact h2.symm

theorem rstrip_head_not (p : Char → Bool) (u : List Char)
    (hu : ∀ c cs, u = c :: cs → p c = false) :
    ∀ c cs, (u.reverse.dropWhile p).reverse = c :: cs → p c = false := by
  intro c cs hs
  have hdecomp := rstrip_decomp p u
  rw [hs] at hdecomp
  exact hu c (cs ++ (u.reverse.takeWhile p).reverse) (by simpa using hdecomp)

theorem dropWhile_eq_self_of_head_not (p : Char → Bool) (u : List Char)
    (hu : ∀ c cs, u = c :: cs → p c = false) : u.dropWhile p = u := by
  cases h : u with
  | nil => simp
  | cons c cs => simp [List.dropWhile_cons, hu c cs h]

theorem stripChars_idem (l : List Char) : stripChars (stripChars l) = stripChars l := by
  have hu : ∀ c cs, l.dropWhile isPySpace = c :: cs → isPySpace c = false :=
    fun c cs h => dropWhile_head_not isPySpace l c cs h
  have hs_head := rstrip_head_not isPySpace (l.dropWhile isPySpace) hu
  show (((stripChars l).dropWhile isPySpace).reverse.dropWhile isPySpace).reverse = stripChars l
  rw [dropWhile_eq_self_of_head_not isPySpace (stripChars l) hs_head]
  show ((((l.dropWhile isPySpace).reverse.dropWhile isPySpace).reverse).reverse.dropWhile isPySpace).reverse
    = stripChars l
  rw [List.reverse_reverse, dropWhile_dropWhile]
  rfl

theorem pyStrip_idem (s : String) : pyStrip (pyStrip s) = pyStrip s := by
  show String.mk (stripChars (stripChars s.data)) = String.mk (stripChars s.data)
  rw [stripChars_idem]

theorem is_filler_sentence_eq (text : String) :
    is_filler_sentence text =
      (if pyLen (pyStrip text) < 15 then fillerRegexMatches (pyStrip text) else false) := rfl

theorem is_substantive_sentence_eq (text : String) :
    is_substantive_sentence text =
      (if pyLen (pyStrip text) < 10 then false
       else if is_filler_sentence (pyStrip text) then false else true) := rfl

theorem is_filler_sentence_strip (t : String) :
    is_filler_sentence (pyStrip t) = is_filler_sentence t := by
  rw [is_filler_sentence_eq, is_filler_sentence_eq t, pyStrip_idem]

theorem is_substantive_sentence_strip (t : String) :
    is_substantive_sentence (pyStrip t) = is_substantive_sentence t := by
  rw [is_substantive_sentence_eq, is_substantive_sentence_eq t, pyStrip_idem]

/-! ## Claim C2 -/

/-- C2: `is_filler_sentence` returns true iff the trimmed text is shorter
than 15 characters and the entire trimmed text matches, case-insensitively,
one of the fixed catalog of fillers optionally followed by a period; any
text with trimmed length 15 or more is never filler. -/
theorem is_filler_sentence_spec (t : String) :
    (is_filler_sentence t = true ↔
      (pyLen (pyStrip t) < 15 ∧
        ∃ w ∈ FILLER_WORDS, pyLower (pyStrip t) = w ∨ pyLower (pyStrip t) = w ++ ".")) ∧
    (15 ≤ pyLen (pyStrip t) → is_filler_sentence t = false) := by
  constructor
  · rw [is_filler_sentence_eq]
    by_cases hlt : pyLen (pyStrip t) < 15
    · rw [if_pos hlt]
      simp [fillerRegexMatches, List.any_eq_true, hlt]
    · rw [if_neg hlt]
      simp [hlt]
  · intro h
    rw [is_filler_sentence_eq, if_neg (by omega)]

/-- Witness for `is_filler_sentence_spec`: a 16-character text is not
filler. -/
theorem is_filler_sentence_spec_witness :
    15 ≤ pyLen (pyStrip "abcdefghijklmnop") ∧ is_filler_sentence "abcdefghijklmnop" = false :=
  ⟨by decide, (is_filler_sentence_spec "abcdefghijklmnop").2 (by decide)⟩

/-! ## Claim C3 -/

/-- C3: `is_substantive_sentence` is true iff the trimmed text has length
at least 10 and is not filler; anything shorter than 10 is rejected; the
two specification examples hold. -/
theorem is_substantive_sentence_spec (t : String) :
    (is_substantive_sentence t = true ↔
      (10 ≤ pyLen (pyStrip t) ∧ is_filler_sentence t = false)) ∧
    (pyLen (pyStrip t) < 10 → is_substantive_sentence t = false) ∧
    is_substantive_sentence "ok" = false ∧
    is_substantive_sentence "We agreed to move the deadline to March" = true := by
  refine ⟨?_, ?_, by decide, by decide⟩
  · rw [is_substantive_sentence_eq, is_filler_sentence_strip]
    by_cases h10 : pyLen (pyStrip t) < 10
    · rw [if_pos h10]
      constructor
      · intro h; exact absurd h (by simp)
      · rintro ⟨ha, _⟩; omega
    · rw [if_neg h10]
      by_cases hf : is_filler_sentence t = true
      · rw [if_pos hf]
        constructor
        · intro h; exact absurd h (by simp)
        · rintro ⟨_, hb⟩; rw [hf] at hb; cases hb
      · rw [if_neg hf]
        constructor
        · intro _; exact ⟨by omega, by simpa using hf⟩
        · intro _; rfl
  · intro h
    rw [is_substantive_sentence_eq, if_pos h]

/-- Witness for `is_substantive_sentence_spec`: the 2-character text "hi"
is rejected outright. -/
theorem is_substantive_sentence_spec_witness :
    pyLen (pyStrip "hi") < 10 ∧ is_substantive_sentence "hi" = false :=
  ⟨by decide, (is_substantive_sentence_spec "hi").2.1 (by decide)⟩

/-! ## Claim C1 -/

theorem extract_sentences_text_eq (ss : List Sentence)
    (h : ∀ s ∈ ss, s.text ≠ JField.null) :
    extract_sentences_text ss =
      some ((ss.filter (fun s => is_substantive_sentence (rawText s))).map fmtSentence) := by
  induction ss with
  | nil => rfl
  | cons s rest ih =>
    have hs : s.text ≠ JField.null := h s (by simp)
    have hrest : ∀ x ∈ rest, x.text ≠ JField.null := fun x hx => h x (by simp [hx])
    have htext : jgetD s.text "" = some (rawText s) := by
      cases ht : s.text with
      | missing => simp [jgetD, rawText, ht]
      | null => exact absurd ht hs
      | val v => simp [jgetD, rawText, ht]
    simp only [extract_sentences_text, htext, ih hrest, List.filter_cons]
    rw [is_substantive_sentence_strip]
    by_cases hsub : is_substantive_sentence (rawText s) = true
    · rw [if_pos hsub]
      simp only [hsub, if_true, List.map_cons]
      cases hsp : jget s.speaker_name with
      | none => simp [fmtSentence, hsp]
      | some sp =>
        by_cases hemp : sp == ""
        · simp [fmtSentence, hsp, hemp]
        · simp [fmtSentence, hsp, hemp]
    · rw [if_neg hsub]
      simp [hsub]

/-- C1: `extract_key_discussion` keeps exactly the substantive sentences in
original order, formats each with its speaker prefix when a speaker name
is present, caps the result at the first 300 surviving entries, and joins
them with newlines, each line prefixed by "- "; the kept list never
exceeds 300 entries. -/
theorem extract_key_discussion_spec (ss : List Sentence)
    (h : ∀ s ∈ ss, s.text ≠ JField.null) :
    extract_key_discussion ss 300 =
      some (pyJoinStr "\n"
        ((((ss.filter (fun s => is_substantive_sentence (rawText s))).map fmtSentence).take 300).map
          (fun line => "- " ++ line))) ∧
    (((ss.filter (fun s => is_substantive_sentence (rawText s))).map fmtSentence).take 300).length ≤ 300 := by
  constructor
  · unfold extract_key_discussion
    rw [extract_sentences_text_eq ss h]
  · exact List.length_take_le 300 _

/-- Witness for `extract_key_discussion_spec`: 1000 substantive sentences
satisfy the no-null hypothesis and the surviving capped list still has at
most 300 entries. -/
theorem extract_key_discussion_spec_witness :
    (∀ s ∈ thousandSentences, s.text ≠ JField.null) ∧
    (((thousandSentences.filter (fun s => is_substantive_sentence (rawText s))).map fmtSentence).take 300).length ≤ 300 := by
  have hp : ∀ s ∈ thousandSentences, s.text ≠ JField.null := by
    intro s hs
    have he := List.eq_of_mem_replicate hs
    rw [he]
    decide
  exact ⟨hp, (extract_key_discussion_spec thousandSentences hp).2⟩

/-! ## Claim C5 -/

/-- C5: the technologies result contains a catalog term iff the term
occurs case-insensitively as a substring of the text; people and companies
are always empty; the Docker/Kubernetes/AWS example is exact. -/
theorem extract_entities_from_text_spec (text : String) :
    (extract_entities_from_text text).people = [] ∧
    (extract_entities_from_text text).companies = [] ∧
    (∀ tech, tech ∈ (extract_entities_from_text text).technologies ↔
      (tech ∈ common_tech_terms ∧ pyContains text tech = true)) ∧
    (∀ tech, tech ∈ (extract_entities_from_text ("We used Docker and Kubernetes with AWS")).technologies ↔
      (tech = "Docker" ∨ tech = "Kubernetes" ∨ tech = "AWS")) := by
  refine ⟨rfl, rfl, ?_, ?_⟩
  · intro tech
    show tech ∈ common_tech_terms.filter (fun t => pyContains text t) ↔ _
    exact List.mem_filter
  · intro tech
    have hconc : (extract_entities_from_text ("We used Docker and Kubernetes with AWS")).technologies
        = ["AWS", "Docker", "Kubernetes"] := by decide
    rw [hconc]
    simp only [List.mem_cons, List.not_mem_nil, or_false]
    constructor
    · rintro (h | h | h)
      · exact Or.inr (Or.inr h)
      · exact Or.inl h
      · exact Or.inr (Or.inl h)
    · rintro (h | h | h)
      · exact Or.inr (Or.inl h)
      · exact Or.inr (Or.inr h)
      · exact Or.inl h

/-! ## Claim C10 -/

/-- C10: because catalog matching is raw substring matching, any text
containing "email" is reported as mentioning the technology "AI", and any
text containing "okapi" is reported as mentioning "API". -/
theorem entity_false_positive_spec :
    (∀ text, pyContains text "email" = true →
      "AI" ∈ (extract_entities_from_text text).technologies) ∧
    (∀ text, pyContains text "okapi" = true →
      "API" ∈ (extract_entities_from_text text).technologies) := by
  constructor
  · intro text h
    simp only [pyContains, decide_eq_true_eq] at h
    have hai : List.IsInfix (pyLower "AI").data (pyLower "email").data := by decide
    show "AI" ∈ common_tech_terms.filter (fun t => pyContains text t)
    refine List.mem_filter.mpr ⟨by decide, ?_⟩
    simp only [pyContains, decide_eq_true_eq]
    exact hai.trans h
  · intro text h
    simp only [pyContains, decide_eq_true_eq] at h
    have hapi : List.IsInfix (pyLower "API").data (pyLower "okapi").data := by decide
    show "API" ∈ common_tech_terms.filter (fun t => pyContains text t)
    refine List.mem_filter.mpr ⟨by decide, ?_⟩
    simp only [pyContains, decide_eq_true_eq]
    exact hapi.trans h

/-- Witness for `entity_false_positive_spec`: concrete texts that mention
no technology still trigger "AI" and "API". -/
theorem entity_false_positive_spec_witness :
    (pyContains "Please reply by email tomorrow" "email" = true ∧
      "AI" ∈ (extract_entities_from_text ("Please reply by email tomorrow")).technologies) ∧
    (pyContains "The okapi escaped from the zoo" "okapi" = true ∧
      "API" ∈ (extract_entities_from_text ("The okapi escaped from the zoo")).technologies) := by
  have h1 : pyContains "Please reply by email tomorrow" "email" = true := by decide
  have h2 : pyContains "The okapi escaped from the zoo" "okapi" = true := by decide
  exact ⟨⟨h1, entity_false_positive_spec.1 _ h1⟩, ⟨h2, entity_false_positive_spec.2 _ h2⟩⟩

/-! ## Claim C4 -/

/-- C4: the null-tolerance invariant fails on nested null fields, while
the highlighted `summary: null` case does hold.  An attendee record whose
`displayName` is absent and whose `name` is present but null makes
`a.get("displayName") or a.get("name", "Unknown")` evaluate to `None`, so
`", ".join` raises `TypeError`; a sentence whose `text` is null makes
`sentence.get("text", "").strip()` raise `AttributeError` (a `none` result
models the uncaught exception).  A transcript with `summary: null` is
processed and falls back to empty defaults. -/
theorem preprocess_null_tolerance_bug :
    preprocess_transcript attendeeNullNameTd = none ∧
    preprocess_transcript sentenceNullTextTd = none ∧
    (preprocess_transcript summaryNullTd).map PreprocessedTranscript.overview = some "" ∧
    (preprocess_transcript summaryNullTd).map PreprocessedTranscript.action_items = some [] ∧
    (preprocess_transcript summaryNullTd).map PreprocessedTranscript.keywords = some [] := by
  exact ⟨by decide, by decide, by decide, by decide, by decide⟩

/-! ## Claim C6 -/

theorem jgetD_text_eq (s : Sentence) (h : s.text ≠ JField.null) :
    jgetD s.text "" = some (rawText s) := by
  cases ht : s.text with
  | missing => simp [jgetD, rawText, ht]
  | null => exact absurd ht h
  | val v => simp [jgetD, rawText, ht]

theorem optionSequence_map_some {α : Type} (l : List α) (f : α → Option String) (g : α → String) :
    (∀ a ∈ l, f a = some (g a)) → optionSequence (l.map f) = some (l.map g) := by
  induction l with
  | nil => intro _; rfl
  | cons a t ih =>
    intro hfg
    have ha := hfg a (by simp)
    have ht := ih (fun x hx => hfg x (by simp [hx]))
    simp only [List.map_cons, ha, optionSequence, ht]
    rfl

/-- C6: the attendee_names field prefers the display name, falls back to
the plain name, then to "Unknown", joined with ", "; an empty attendee
list yields "Not specified"; the specification example renders as
"Ana, Bo, Unknown".  (The hypotheses restrict to attendee records without
null name fields — null handling is settled separately by
`preprocess_null_tolerance_bug` — and require any present display name to
be nonempty, matching the claim's notion of "present"; sentence texts must
not be null so that preprocessing completes.) -/
theorem preprocess_attendee_names_spec (td : Transcript)
    (ha : ∀ a ∈ pyOrListD (jget td.meeting_attendees) [],
      a.displayName ≠ JField.null ∧ a.displayName ≠ JField.val "" ∧ a.name ≠ JField.null)
    (hs : ∀ s ∈ pyOrListD (jget td.sentences) [], s.text ≠ JField.null) :
    ((preprocess_transcript td).map PreprocessedTranscript.attendee_names =
      some (if pyOrListD (jget td.meeting_attendees) [] = [] then "Not specified"
            else pyJoinStr ", " ((pyOrListD (jget td.meeting_attendees) []).map specAttendeeName))) ∧
    (preprocess_transcript exampleAttendeeTd).map PreprocessedTranscript.attendee_names = some "Ana, Bo, Unknown" ∧
    (preprocess_transcript emptyTd).map PreprocessedTranscript.attendee_names = some "Not specified" := by
  refine ⟨?_, by decide, by decide⟩
  have hname : ∀ a ∈ pyOrListD (jget td.meeting_attendees) [],
      attendeeNameExpr a = some (specAttendeeName a) := by
    intro a hma
    obtain ⟨h1, h2, h3⟩ := ha a hma
    cases hd : a.displayName with
    | missing =>
      cases hn : a.name with
      | missing => simp [attendeeNameExpr, specAttendeeName, jget, jgetD, pyOrStr, hd, hn]
      | null => exact absurd hn h3
      | val n => simp [attendeeNameExpr, specAttendeeName, jget, jgetD, pyOrStr, hd, hn]
    | null => exact absurd hd h1
    | val d =>
      have hdne : ¬(d = "") := by
        intro hde
        rw [hde] at hd
        exact h2 hd
      simp [attendeeNameExpr, specAttendeeName, jget, pyOrStr, hd, hdne]
  have hjoin : computeAttendeeNames (pyOrListD (jget td.meeting_attendees) []) =
      some (if pyOrListD (jget td.meeting_attendees) [] = [] then "Not specified"
            else pyJoinStr ", " ((pyOrListD (jget td.meeting_attendees) []).map specAttendeeName)) := by
    unfold computeAttendeeNames
    by_cases he : pyOrListD (jget td.meeting_attendees) [] = []
    · rw [if_pos (by simp [he]), if_pos he]
    · rw [if_neg (by simp [he]), if_neg he]
      unfold pyJoin
      rw [optionSequence_map_some _ attendeeNameExpr specAttendeeName hname]
      rfl
  have hkd := (extract_key_discussion_spec (pyOrListD (jget td.sentences) []) hs).1
  have hft : pyJoin " " ((pyOrListD (jget td.sentences) []).map (fun s => jgetD s.text "")) =
      some (pyJoinStr " " ((pyOrListD (jget td.sentences) []).map rawText)) := by
    unfold pyJoin
    rw [optionSequence_map_some _ _ rawText (fun s hx => jgetD_text_eq s (hs s hx))]
    rfl
  simp only [preprocess_transcript, hjoin, hkd, hft]
  rfl

/-- Witness for `preprocess_attendee_names_spec` at the specification
example list `[{displayName: "Ana"}, {name: "Bo"}, {}]`. -/
theorem preprocess_attendee_names_spec_witness :
    (∀ a ∈ pyOrListD (jget exampleAttendeeTd.meeting_attendees) [],
      a.displayName ≠ JField.null ∧ a.displayName ≠ JField.val "" ∧ a.name ≠ JField.null) ∧
    (∀ s ∈ pyOrListD (jget exampleAttendeeTd.sentences) [], s.text ≠ JField.null) ∧
    ((preprocess_transcript exampleAttendeeTd).map PreprocessedTranscript.attendee_names =
      some (if pyOrListD (jget exampleAttendeeTd.meeting_attendees) [] = [] then "Not specified"
            else pyJoinStr ", " ((pyOrListD (jget exampleAttendeeTd.meeting_attendees) []).map specAttendeeName))) := by
  have h1 : ∀ a ∈ pyOrListD (jget exampleAttendeeTd.meeting_attendees) [],
      a.displayName ≠ JField.null ∧ a.displayName ≠ JField.val "" ∧ a.name ≠ JField.null := by decide
  have h2 : ∀ s ∈ pyOrListD (jget exampleAttendeeTd.sentences) [], s.text ≠ JField.null := by decide
  exact ⟨h1, h2, (preprocess_attendee_names_spec exampleAttendeeTd h1 h2).1⟩

/-! ## Claim C8 -/

set_option maxRecDepth 20000 in
/-- C8: the notification renders the duration in whole minutes by integer
division; a missing duration renders as 0 minutes; 125 seconds render as
2 minutes, and the Slack message for that transcript contains the line
fragment "*Duration:* 2 minutes". -/
theorem slack_duration_spec (td : Transcript) :
    slack_duration_mins td = (pyOrNatD (jget td.duration) 0) / 60 ∧
    (jget td.duration = none → slack_duration_mins td = 0) ∧
    slack_duration_mins duration125Td = 2 ∧
    pyContains (post_to_slack_message "Draft body" duration125Td) "*Duration:* 2 minutes" = true := by
  refine ⟨?_, ?_, by decide, by decide⟩
  · simp only [slack_duration_mins]
    cases hX : pyOrNatD (jget td.duration) 0 with
    | zero => simp
    | succ n => simp
  · intro h
    simp [slack_duration_mins, h, pyOrNatD]

/-- Witness for `slack_duration_spec`: a transcript without a duration
renders as 0 minutes. -/
theorem slack_duration_spec_witness :
    jget emptyTd.duration = none ∧ slack_duration_mins emptyTd = 0 :=
  ⟨rfl, (slack_duration_spec emptyTd).2.1 rfl⟩

/-! ## Claim C9 -/

theorem pyJoinStr_eq_empty_iff (l : List String) :
    pyJoinStr ", " l = "" ↔ (l = [] ∨ l = [""]) := by
  rcases l with _ | ⟨x, _ | ⟨y, rest⟩⟩
  · simp [pyJoinStr]
  · simp [pyJoinStr]
  · simp only [pyJoinStr]
    constructor
    · intro h
      exfalso
      have hd := congrArg String.data h
      rw [String.data_append, String.data_append] at hd
      have h1 := (List.append_eq_nil.mp hd).1
      have h2 := (List.append_eq_nil.mp h1).2
      exact absurd h2 (by decide)
    · rintro (h | h) <;> simp at h

/-- C9 (amended): `build_email_prompt` renders the overview placeholder
iff the overview is empty, and the keywords / action-items placeholders
iff the respective list is empty, exactly as claimed; the technologies
line, however, shows "None identified" exactly when the comma-joined
technologies string is empty — that is, when the list is `[]` or `[""]` —
because the source tests the truthiness of the joined string, not of the
list. -/
theorem build_email_prompt_spec (email_template : String) (title : String)
    (attendee_names : String) (overview : String) (keywords : List String)
    (action_items : List String) (key_discussion : String)
    (entities : Option Entities) (date_string : String) :
    build_email_prompt email_template title attendee_names overview keywords
        action_items key_discussion entities date_string =
      SYSTEM_PROMPT
      ++ "\n\nMeeting Details:\n- Title: " ++ title
      ++ "\n- Date: " ++ date_string
      ++ "\n- Attendees: " ++ attendee_names
      ++ "\n- Overview: " ++ (if overview = "" then "Not provided - extract from transcript" else overview)
      ++ "\n- Key Topics: " ++ (if keywords = [] then "Extract from transcript" else pyJoinStr ", " keywords)
      ++ "\n- Action Items: " ++ (if action_items = [] then "Extract from transcript" else pyJoinStr ", " action_items)
      ++ (match entities with
          | none => ""
          | some e => "\nTechnologies/Tools Mentioned: "
              ++ (if e.technologies = [] ∨ e.technologies = [""] then "None identified"
                  else pyJoinStr ", " e.technologies))
      ++ "\n\nTranscript Discussion Points (filtered for substantive content):\n" ++ key_discussion
      ++ "\n\nBased on the above transcript, generate a professional follow-up email. Extract specific details, names, technologies, and commitments from the transcript. Do not use generic placeholder text.\n\nUse the following template structure as a loose guide (adapt based on actual content):\n\n"
      ++ email_template := by
  cases entities with
  | none =>
    simp only [build_email_prompt, pyOrStrD, beq_iff_eq, List.isEmpty_iff]
  | some e =>
    simp only [build_email_prompt, pyOrStrD, beq_iff_eq, List.isEmpty_iff,
      pyJoinStr_eq_empty_iff]

set_option maxRecDepth 8000 in
/-- Counterexample to C9 as stated: with a supplied entities object whose
technologies list is the non-empty list `[""]`, the code renders
"None identified" while the claim's reading renders the comma-joined
mentions (the empty string), so the two prompts differ. -/
theorem build_email_prompt_counterexample :
    build_email_prompt "TPL" "Weekly Sync" "Ana" "" [] [] "- none"
        (some ⟨[], [], [""]⟩) "2026-01-01" ≠
    build_email_prompt_claimed "TPL" "Weekly Sync" "Ana" "" [] [] "- none"
        (some ⟨[], [], [""]⟩) "2026-01-01" := by
  intro h
  have h1 := congrArg String.data h
  simp only [build_email_prompt, build_email_prompt_claimed, pyOrStrD, pyJoinStr,
    String.data_append, List.append_assoc] at h1
  simp at h1

/-! ## Claim C7 -/

/-- C7: for a "Transcription completed" payload whose `meetingId` is
missing, null, or empty, the handler performs no downstream calls — no
transcript fetch, no model call, no post — but it responds with a server
error (500), not the client error the claim states: the
`HTTPException(400, "Missing meetingId in payload")` raised inside the
`try` block is itself an `Exception`, so the blanket `except Exception`
catches it and re-raises `HTTPException(500, str(e))`. -/
theorem webhook_missing_meeting_id_spec (fetchResult : Option Transcript)
    (modelResult : Option String) (email_template : String)
    (channelId : Option String) (targetChannelName : String) :
    process_fireflies_webhook (some ⟨JField.val ("Transcription completed"), JField.missing⟩)
        fetchResult modelResult email_template channelId targetChannelName =
      (WebhookResponse.raised 500 "400: Missing meetingId in payload", noDownstreamCalls) ∧
    process_fireflies_webhook (some ⟨JField.val ("Transcription completed"), JField.null⟩)
        fetchResult modelResult email_template channelId targetChannelName =
      (WebhookResponse.raised 500 "400: Missing meetingId in payload", noDownstreamCalls) ∧
    process_fireflies_webhook (some ⟨JField.val ("Transcription completed"), JField.val ("")⟩)
        fetchResult modelResult email_template channelId targetChannelName =
      (WebhookResponse.raised 500 "400: Missing meetingId in payload", noDownstreamCalls) := by
  refine ⟨?_, ?_, ?_⟩ <;>
    · simp [process_fireflies_webhook, webhook_try_body, jget, noDownstreamCalls]
      decide
